import Mathlib

/-!
Verification of the parser and AST layer of a small C++-like compiler.

The development shallowly embeds the front end of the repository:

* the token/lexer boundary (lexer.ipp is outside the provided sources; the
  parser-visible interface nextToken / getRawUntil is modelled, and the
  token kinds are those the parser matches on);
* the AST node records of ast/nodes/nodes.h, including the description
  slots installed by decoration and the loadValueInRegister operations;
* the recursive-descent parser of src/lexing_parsing/parser.ipp, with the
  generic separated-list combinator, translated function by function.

C++ while-loops become fuel-indexed structural recursion; running out of
fuel is a distinguished outcome (CompileError.outOfFuel) that never occurs
on the inputs considered by the theorems. USER_THROW / USER_ASSERT become
CompileError.syntaxError carrying the source position that the C++ code
passes; THROW (internal compiler error) becomes CompileError.internalError;
reading character 0 of an empty string_view (undefined behaviour in C++)
becomes the distinguished CompileError.indexOutOfBounds.
-/

set_option autoImplicit false

namespace CppCompiler

/-! ## Tokens and the lexer boundary -/

/-- Token kinds. The lexer lives outside the provided sources; the kinds are
the ones parser.ipp matches on, with the PURE_TYPES_TOKEN_LIST of primitive
type keywords modelled from the spec (int, void, char). -/
inductive TokenType where
  | TT_NONE
  | TT_END
  | TT_IDENT
  | TT_NUMBER
  | TT_K_CLASS
  | TT_K_RETURN
  | TT_K_ASM
  | TT_K_INT
  | TT_K_VOID
  | TT_K_CHAR
  | TT_LPAR
  | TT_RPAR
  | TT_LCURL
  | TT_RCURL
  | TT_SEMI
  | TT_COMMA
  | TT_COLON
  | TT_EQUAL
  | TT_STAR
  | TT_DOUBLE_QUOTE
  deriving DecidableEq, Repr

/-- A token: kind, raw text, source position (Token in lexer.ipp). -/
structure Token where
  type : TokenType
  value : String
  position : Nat
  deriving DecidableEq, Repr

/-- The primitive-type keyword tokens (PURE_TYPES_TOKEN_LIST). Modelled from
the spec: declarations start with a primitive-type keyword. -/
def pureTypeTokens : List TokenType :=
  [TokenType.TT_K_INT, TokenType.TT_K_VOID, TokenType.TT_K_CHAR]

/-- What the parser pulls from the lexer: either a typed token, or a raw
text run (consumed by getRawUntil between the quotes of a string literal). -/
inductive LexItem where
  | tok : Token → LexItem
  | raw : String → LexItem
  deriving DecidableEq, Repr

/-- The token the lexer yields at end of input. -/
def endToken : Token := ⟨TokenType.TT_END, "", 0⟩

/-- Pull one token from the remaining lexer items. A raw item where a token
is demanded never happens on the call patterns the parser makes; it is
mapped to a TT_NONE token. -/
def fetchToken : List LexItem → Token × List LexItem
  | [] => (endToken, [])
  | .tok t :: r => (t, r)
  | .raw s :: r => (⟨TokenType.TT_NONE, s, 0⟩, r)

/-- Parser state: the current lookahead token and the remaining lexer
items (the Parser class fields _currentToken and _lexer). -/
structure ParserState where
  cur : Token
  items : List LexItem
  deriving DecidableEq, Repr

/-- The state right after the parser has pulled its first token from the
given items (the nextToken() call at the top of parseTranslationUnit, and
equally the state each sub-parser is entered with). -/
def startState (items : List LexItem) : ParserState :=
  ⟨(fetchToken items).1, (fetchToken items).2⟩

/-- nextToken: replace the lookahead by the next lexer token. -/
def nextTokenState (st : ParserState) : ParserState :=
  startState st.items

/-- getRawUntil: hand back the pending raw text run and advance the
lookahead past it (Parser::getRawUntil). The breaker character is the one
the C++ lexer scans for; in the modelled call patterns the raw run is
exactly the pending raw item. -/
def getRawUntilState (breaker : Char) (st : ParserState) : String × ParserState :=
  match st.items with
  | .raw s :: r => (s, startState r)
  | _ => ("", startState st.items)

/-! ## Errors -/

/-- Outcomes of failing parser/AST operations. syntaxError models
USER_THROW / USER_ASSERT (user-facing, with source position);
unknownRegister models the strToReg failure (user-facing);
internalError models THROW (compiler-internal invariant violation);
indexOutOfBounds models an out-of-range string_view index (undefined
behaviour in the C++); outOfFuel is the fuel-exhaustion artifact of the
embedding. -/
inductive CompileError where
  | syntaxError (msg : String) (position : Nat)
  | unknownRegister (name : String)
  | internalError (msg : String)
  | indexOutOfBounds
  | outOfFuel
  deriving DecidableEq, Repr

/-- User-facing errors (syntax or semantic faults of the compiled source),
as opposed to compiler-internal invariant violations. -/
def CompileError.isUserError : CompileError → Bool
  | .syntaxError _ _ => true
  | .unknownRegister _ => true
  | _ => false

def msgUnexpectedToken : String := "Unexpected token type"
def msgExpectedTrailing : String := "Expected trailing separator"
def msgFoundTrailing : String := "Found trailing separator in list, expected new element"
def msgExpectedDoubleQuote : String := "Expected double quote for literal"
def msgExpectedStringLiteral : String := "Expected a valid string literal"
def msgOnlyEqRegister : String := "Only ={register} identifiers are supported"
def msgUnexpectedInstruction : String := "Unexpected token while parsing instruction"
def msgTypeDescriptionNotSet : String := "TypeDescription not set"
def msgVariableDescriptionNotSet : String := "VariableDescription not set"
def msgVariableLoadNotImplemented : String := "variable loadValueInRegister Not implemented"
def msgFunctionCallLoadNotImplemented : String := "FunctionCall loadValueInRegister Not implemented"

/-! ## Registers and the code generator boundary -/

/-- Physical registers. Modelled from the spec: ast/scopes/registers.hpp is
outside the provided sources; the spec states a canonical-name-to-enum
mapping with unknown names a user error, and its scenarios use eax. -/
inductive Register where
  | rax | rbx | rcx | rdx | rsi | rdi | rbp | rsp
  | eax | ebx | ecx | edx
  deriving DecidableEq, Repr

/-- Canonical register name of a register. -/
def regName : Register → String
  | .rax => "rax" | .rbx => "rbx" | .rcx => "rcx" | .rdx => "rdx"
  | .rsi => "rsi" | .rdi => "rdi" | .rbp => "rbp" | .rsp => "rsp"
  | .eax => "eax" | .ebx => "ebx" | .ecx => "ecx" | .edx => "edx"

/-- Modelled from the spec: scopes::strToReg of registers.hpp (absent from
the provided sources) maps a canonical register mnemonic to the enum and
raises a user-facing unknown-register error otherwise. -/
def strToReg (s : String) : Except CompileError Register :=
  if s = "rax" then .ok .rax
  else if s = "rbx" then .ok .rbx
  else if s = "rcx" then .ok .rcx
  else if s = "rdx" then .ok .rdx
  else if s = "rsi" then .ok .rsi
  else if s = "rdi" then .ok .rdi
  else if s = "rbp" then .ok .rbp
  else if s = "rsp" then .ok .rsp
  else if s = "eax" then .ok .eax
  else if s = "ebx" then .ok .ebx
  else if s = "ecx" then .ok .ecx
  else if s = "edx" then .ok .edx
  else .error (.unknownRegister s)

/-- Modelled from the spec: the code generator of codegen/generate.hpp
(absent from the provided sources) accumulates emitted assembly text. -/
structure NasmGenerator_x86_64 where
  output : List String
  deriving DecidableEq, Repr

/-- Modelled from the spec: emitting an immediate load instruction. -/
def NasmGenerator_x86_64.emitLoadNumberLitteral (g : NasmGenerator_x86_64)
    (r : Register) (n : Int) : NasmGenerator_x86_64 :=
  ⟨g.output ++ [String.append (String.append (String.append ("mov ") (regName r)) (", ")) (toString n)]⟩

/-! ## Description records installed by decoration -/

/-- Modelled from the spec: the resolved-type record owned by a scope
(ast/scopes/types.hpp is absent from the provided sources). -/
structure TypeDescription where
  name : String
  deriving DecidableEq, Repr

/-- Modelled from the spec: the resolved-variable record owned by a scope,
recording the resolved type of the variable. -/
structure VariableDescription where
  typeName : String
  deriving DecidableEq, Repr

/-! ## AST nodes (ast/nodes/nodes.h) -/

namespace ast

/-- enum class Visibility of nodes.h. -/
inductive Visibility where
  | Public | Protected | Private
  deriving DecidableEq, Repr

/-- ast::Type. Lean reserves the name Type, so the node is called TypeNode;
fields and operations keep their source names. The description pointer,
null until decoration, is an Option. -/
structure TypeNode where
  name : String
  pointerDepth : Nat
  description : Option TypeDescription := none
  deriving DecidableEq, Repr

/-- Type::getTypeDescription: the stored description if set, else a
compiler-internal error (THROW). -/
def TypeNode.getTypeDescription (t : TypeNode) : Except CompileError TypeDescription :=
  match t.description with
  | some d => .ok d
  | none => .error (.internalError msgTypeDescriptionNotSet)

/-- Type::fullName: the name followed by one star per pointer level. -/
def TypeNode.fullName (t : TypeNode) : String :=
  String.append t.name (String.mk (List.replicate t.pointerDepth '*'))

/-- ast::Variable. -/
structure Variable where
  name : String
  description : Option VariableDescription := none
  deriving DecidableEq, Repr

/-- Variable::loadValueInRegister: a bare placeholder in the observed
baseline; it raises a fatal compiler-internal error (THROW) for every
generator and target register, emitting nothing. -/
def Variable.loadValueInRegister (v : Variable) (generator : NasmGenerator_x86_64)
    (targetRegister : Register) : Except CompileError NasmGenerator_x86_64 :=
  .error (.internalError msgVariableLoadNotImplemented)

/-- Variable::getVariableDescription: the stored description if set, else a
compiler-internal error (THROW). -/
def Variable.getVariableDescription (v : Variable) : Except CompileError VariableDescription :=
  match v.description with
  | some d => .ok d
  | none => .error (.internalError msgVariableDescriptionNotSet)

/-- ast::NumberLiteral. -/
structure NumberLiteral where
  number : Int
  deriving DecidableEq, Repr

/-- NumberLiteral::loadValueInRegister emits an immediate load. -/
def NumberLiteral.loadValueInRegister (l : NumberLiteral) (generator : NasmGenerator_x86_64)
    (targetRegister : Register) : Except CompileError NasmGenerator_x86_64 :=
  .ok (generator.emitLoadNumberLitteral targetRegister l.number)

/-- ast::StringLiteral: owned, escape-processed content. -/
structure StringLiteral where
  content : String
  deriving DecidableEq, Repr

/-- ast::Expression: a variant over NumberLiteral and Variable (the
function-call alternative is commented out in the source). -/
inductive Expression where
  | num : NumberLiteral → Expression
  | var : Variable → Expression
  deriving DecidableEq, Repr

/-- Expression::loadValueInRegister: std::visit dispatch over the variant. -/
def Expression.loadValueInRegister (e : Expression) (generator : NasmGenerator_x86_64)
    (targetRegister : Register) : Except CompileError NasmGenerator_x86_64 :=
  match e with
  | .num n => n.loadValueInRegister generator targetRegister
  | .var v => v.loadValueInRegister generator targetRegister

/-- ast::FunctionCall: callee name plus ordered argument expressions. -/
structure FunctionCall where
  name : String
  arguments : List Expression
  deriving DecidableEq, Repr

/-- FunctionCall::loadValueInRegister: a bare placeholder in the observed
baseline; it raises a fatal compiler-internal error (THROW) for every
generator and target register. -/
def FunctionCall.loadValueInRegister (f : FunctionCall) (generator : NasmGenerator_x86_64)
    (targetRegister : Register) : Except CompileError NasmGenerator_x86_64 :=
  .error (.internalError msgFunctionCallLoadNotImplemented)

/-- ast::Declaration: a type, the declared variable, an optional
initializer. The C++ field named variable is varNode here (variable is a
Lean keyword). -/
structure Declaration where
  type : TypeNode
  varNode : Variable
  assignment : Option Expression := none
  deriving DecidableEq, Repr

/-- ast::ReturnStatement. -/
structure ReturnStatement where
  expression : Expression
  deriving DecidableEq, Repr

/-- InlineAsmStatement::BindingRequest: plain old data. -/
structure BindingRequest where
  registerTo : Register
  varIdentifier : String
  deriving DecidableEq, Repr

/-- ast::InlineAsmStatement: the raw assembly body plus binding requests. -/
structure InlineAsmStatement where
  asmBlock : StringLiteral
  requests : List BindingRequest
  deriving DecidableEq, Repr

/-- ast::Instruction: a variant over ReturnStatement, InlineAsmStatement
and Declaration. -/
inductive Instruction where
  | ret : ReturnStatement → Instruction
  | asmStmt : InlineAsmStatement → Instruction
  | decl : Declaration → Instruction
  deriving DecidableEq, Repr

/-- Whether an instruction is the Declaration alternative of the variant. -/
def Instruction.isDeclaration : Instruction → Bool
  | .decl _ => true
  | _ => false

/-- ast::InstructionList. -/
structure InstructionList where
  instructions : List Instruction
  deriving DecidableEq, Repr

/-- ast::FunctionParameter. -/
structure FunctionParameter where
  type : TypeNode
  name : String
  deriving DecidableEq, Repr

/-- ast::FunctionParameterList. -/
structure FunctionParameterList where
  parameters : List FunctionParameter
  deriving DecidableEq, Repr

/-- ast::Function. -/
structure Function where
  returnType : TypeNode
  name : String
  params : FunctionParameterList
  body : InstructionList
  deriving DecidableEq, Repr

/-- ast::Method: like Function but scoped to a class. -/
structure Method where
  returnType : TypeNode
  name : String
  params : FunctionParameterList
  body : InstructionList
  deriving DecidableEq, Repr

/-- ast::AccessSpecifier: a per-member visibility level. -/
structure AccessSpecifier where
  level : Visibility
  deriving DecidableEq, Repr

/-- ast::Attribute: a typed, named class member field. -/
structure Attribute where
  type : TypeNode
  name : String
  deriving DecidableEq, Repr

/-- ast::Class: name, attributes and methods, each paired with an
AccessSpecifier. -/
structure Class where
  name : String
  attributes : List (Attribute × AccessSpecifier)
  methods : List (Method × AccessSpecifier)
  deriving DecidableEq, Repr

/-- ast::TranslationUnit. -/
structure TranslationUnit where
  functions : List Function
  classes : List Class
  deriving DecidableEq, Repr

end ast

/-! ## The parser (src/lexing_parsing/parser.ipp) -/

/-- Result of a parsing step: a value and the successor state, or an
error. -/
abbrev ParseResult (α : Type) := Except CompileError (α × ParserState)

/-- Parser::match: demand the given token kind; on success hand back its
text and advance, otherwise USER_ASSERT fails at the current token. -/
def matchTok (tt : TokenType) (st : ParserState) : ParseResult String :=
  if st.cur.type = tt then .ok (st.cur.value, nextTokenState st)
  else .error (.syntaxError msgUnexpectedToken st.cur.position)

/-- The trailing-separator policy of the separated-list combinator. -/
inductive TrailingSeparator where
  | TRAILING_FORBIDDEN
  | TRAILING_OPTIONAL
  | TRAILING_REQUIRED
  deriving DecidableEq, Repr

/-- Parser::parseSeparatedList. One loop iteration per unit of fuel:
while the breaker is absent (or none is configured), parse an element;
then, if a separator is configured, consume it when present, fail under
TRAILING_REQUIRED when absent, and break otherwise; finally, under
TRAILING_FORBIDDEN with a breaker, fail if the breaker directly follows
the consumed separator. -/
def parseSeparatedList {T : Type} (ttSeparator : TokenType) (trailingMode : TrailingSeparator)
    (ttBreaker : TokenType) (parseElement : ParserState → ParseResult T) :
    Nat → ParserState → ParseResult (List T)
  | 0, _ => .error .outOfFuel
  | fuel+1, st =>
    if ttBreaker ≠ TokenType.TT_NONE ∧ st.cur.type = ttBreaker then
      .ok ([], st)
    else
      match parseElement st with
      | .error e => .error e
      | .ok (el, st1) =>
        if ttSeparator ≠ TokenType.TT_NONE then
          if st1.cur.type = ttSeparator then
            match matchTok ttSeparator st1 with
            | .error e => .error e
            | .ok (_, st2) =>
              if ttBreaker ≠ TokenType.TT_NONE ∧ trailingMode = TrailingSeparator.TRAILING_FORBIDDEN
                  ∧ st2.cur.type = ttBreaker then
                .error (.syntaxError msgFoundTrailing st2.cur.position)
              else
                match parseSeparatedList ttSeparator trailingMode ttBreaker parseElement fuel st2 with
                | .error e => .error e
                | .ok (rest, st3) => .ok (el :: rest, st3)
          else if trailingMode = TrailingSeparator.TRAILING_REQUIRED then
            .error (.syntaxError msgExpectedTrailing st1.cur.position)
          else
            .ok ([el], st1)
        else
          if ttBreaker ≠ TokenType.TT_NONE ∧ trailingMode = TrailingSeparator.TRAILING_FORBIDDEN
              ∧ st1.cur.type = ttBreaker then
            .error (.syntaxError msgFoundTrailing st1.cur.position)
          else
            match parseSeparatedList ttSeparator trailingMode ttBreaker parseElement fuel st1 with
            | .error e => .error e
            | .ok (rest, st2) => .ok (el :: rest, st2)

/-- Parser::parsePureType: a primitive-type keyword if the lookahead is
one (the PURE_TYPES_TOKEN_LIST X-macro), otherwise an identifier. -/
def parsePureType (st : ParserState) : ParseResult String :=
  if st.cur.type = TokenType.TT_K_INT then matchTok TokenType.TT_K_INT st
  else if st.cur.type = TokenType.TT_K_VOID then matchTok TokenType.TT_K_VOID st
  else if st.cur.type = TokenType.TT_K_CHAR then matchTok TokenType.TT_K_CHAR st
  else matchTok TokenType.TT_IDENT st

/-- The star loop of Parser::parseType, counting pointer depth. -/
def parseTypeStars : Nat → ParserState → ParseResult Nat
  | 0, _ => .error .outOfFuel
  | fuel+1, st =>
    if st.cur.type = TokenType.TT_STAR then
      match matchTok TokenType.TT_STAR st with
      | .error e => .error e
      | .ok (_, st1) =>
        match parseTypeStars fuel st1 with
        | .error e => .error e
        | .ok (depth, st2) => .ok (depth + 1, st2)
    else .ok (0, st)

/-- Parser::parseType. -/
def parseType (fuel : Nat) (st : ParserState) : ParseResult ast.TypeNode :=
  match parsePureType st with
  | .error e => .error e
  | .ok (pureType, st1) =>
    match parseTypeStars fuel st1 with
    | .error e => .error e
    | .ok (pointerDepth, st2) => .ok (⟨pureType, pointerDepth, none⟩, st2)

/-- Parser::parseSingleParam: a type and an optional parameter name. -/
def parseSingleParam (fuel : Nat) (st : ParserState) : ParseResult ast.FunctionParameter :=
  match parseType fuel st with
  | .error e => .error e
  | .ok (ty, st1) =>
    if st1.cur.type = TokenType.TT_IDENT then
      match matchTok TokenType.TT_IDENT st1 with
      | .error e => .error e
      | .ok (n, st2) => .ok (⟨ty, n⟩, st2)
    else .ok (⟨ty, ""⟩, st1)

/-- Parser::parseFunctionParams: a parenthesised comma-separated parameter
list with the trailing comma forbidden. -/
def parseFunctionParams (fuel : Nat) (st : ParserState) : ParseResult ast.FunctionParameterList :=
  match matchTok TokenType.TT_LPAR st with
  | .error e => .error e
  | .ok (_, st1) =>
    match parseSeparatedList TokenType.TT_COMMA TrailingSeparator.TRAILING_FORBIDDEN
        TokenType.TT_RPAR (parseSingleParam fuel) fuel st1 with
    | .error e => .error e
    | .ok (ps, st2) =>
      match matchTok TokenType.TT_RPAR st2 with
      | .error e => .error e
      | .ok (_, st3) => .ok (⟨ps⟩, st3)

/-- Parser::parseRawSingleStringLiteral: one double-quoted run, taken raw:
no adjacent-literal concatenation and no escape replacement. -/
def parseRawSingleStringLiteral (st : ParserState) : ParseResult String :=
  if st.cur.type = TokenType.TT_DOUBLE_QUOTE then
    match matchTok TokenType.TT_DOUBLE_QUOTE (getRawUntilState '"' st).2 with
    | .error e => .error e
    | .ok (_, st2) => .ok ((getRawUntilState '"' st).1, st2)
  else .error (.syntaxError msgExpectedDoubleQuote st.cur.position)

/-- Modelled from the spec: Lexer::replaceEscapes of lexer.ipp (absent from
the provided sources) replaces escape sequences in a raw literal piece; the
source comment gives the example of a backslash-t becoming a tab. -/
def replaceEscapesChar (c : Char) : Char :=
  if c = 't' then '\t'
  else if c = 'n' then '\n'
  else if c = 'r' then '\r'
  else if c = '0' then Char.ofNat 0
  else c

/-- Modelled from the spec: escape replacement over a raw literal piece. -/
def replaceEscapesAux : List Char → List Char
  | [] => []
  | '\\' :: c :: rest => replaceEscapesChar c :: replaceEscapesAux rest
  | c :: rest => c :: replaceEscapesAux rest

/-- Modelled from the spec: Lexer::replaceEscapes. -/
def replaceEscapes (s : String) : String :=
  String.mk (replaceEscapesAux s.data)

/-- The while loop of Parser::parseStringLiteral, collecting the adjacent
raw double-quoted pieces in order. -/
def parseStringLiteralPieces : Nat → ParserState → ParseResult (List String)
  | 0, _ => .error .outOfFuel
  | fuel+1, st =>
    if st.cur.type = TokenType.TT_DOUBLE_QUOTE then
      match parseRawSingleStringLiteral st with
      | .error e => .error e
      | .ok (s, st1) =>
        match parseStringLiteralPieces fuel st1 with
        | .error e => .error e
        | .ok (rest, st2) => .ok (s :: rest, st2)
    else .ok ([], st)

/-- Parser::parseStringLiteral: one or more adjacent double-quoted pieces;
the content is their in-order concatenation with escapes replaced per
piece; with no piece at all, a user-facing error at the current token. -/
def parseStringLiteral (fuel : Nat) (st : ParserState) : ParseResult ast.StringLiteral :=
  match parseStringLiteralPieces fuel st with
  | .error e => .error e
  | .ok (literals, st1) =>
    if literals.isEmpty then .error (.syntaxError msgExpectedStringLiteral st1.cur.position)
    else .ok (⟨String.join (literals.map replaceEscapes)⟩, st1)

/-- Parser::parseRegisterName: take one raw single string literal, demand
that its character 0 is the equals sign (reading character 0 of an empty
literal is out of bounds), and look the remainder up with strToReg. -/
def parseRegisterName (st : ParserState) : ParseResult Register :=
  match parseRawSingleStringLiteral st with
  | .error e => .error e
  | .ok (raw, st1) =>
    match raw.data with
    | [] => .error .indexOutOfBounds
    | c :: _ =>
      if c = '=' then
        match strToReg (raw.drop 1) with
        | .error e => .error e
        | .ok r => .ok (r, st1)
      else .error (.syntaxError msgOnlyEqRegister st1.cur.position)

/-- Parser::parseBindingRequest: a register name then a parenthesised
identifier. -/
def parseBindingRequest (st : ParserState) : ParseResult ast.BindingRequest :=
  match parseRegisterName st with
  | .error e => .error e
  | .ok (registerTo, st1) =>
    match matchTok TokenType.TT_LPAR st1 with
    | .error e => .error e
    | .ok (_, st2) =>
      match matchTok TokenType.TT_IDENT st2 with
      | .error e => .error e
      | .ok (ident, st3) =>
        match matchTok TokenType.TT_RPAR st3 with
        | .error e => .error e
        | .ok (_, st4) => .ok (⟨registerTo, ident⟩, st4)

/-- Modelled from the spec: utils::readNumber of dbg/utils.hpp (absent from
the provided sources) reads the numeric value of a NUMBER token. -/
def readNumber (s : String) : Int :=
  Int.ofNat (s.toNat?.getD 0)

/-- Parser::parseNumberLiteral. -/
def parseNumberLiteral (st : ParserState) : ParseResult ast.NumberLiteral :=
  match matchTok TokenType.TT_NUMBER st with
  | .error e => .error e
  | .ok (v, st1) => .ok (⟨readNumber v⟩, st1)

/-- Parser::parseExpression: an identifier becomes a Variable, anything
else must be a number literal (the function-call branch is commented out
in the source). -/
def parseExpression (st : ParserState) : ParseResult ast.Expression :=
  if st.cur.type = TokenType.TT_IDENT then
    match matchTok TokenType.TT_IDENT st with
    | .error e => .error e
    | .ok (ident, st1) => .ok (.var ⟨ident, none⟩, st1)
  else
    match parseNumberLiteral st with
    | .error e => .error e
    | .ok (n, st1) => .ok (.num n, st1)

/-- Parser::parseReturnStatement. -/
def parseReturnStatement (st : ParserState) : ParseResult ast.ReturnStatement :=
  match matchTok TokenType.TT_K_RETURN st with
  | .error e => .error e
  | .ok (_, st1) =>
    match parseExpression st1 with
    | .error e => .error e
    | .ok (expression, st2) => .ok (⟨expression⟩, st2)

/-- Parser::parseInlineAsmStatement: the asm keyword, an opening
parenthesis, the assembly string literal, an optional colon-led binding
list with the trailing comma optional, and the closing parenthesis. -/
def parseInlineAsmStatement (fuel : Nat) (st : ParserState) : ParseResult ast.InlineAsmStatement :=
  match matchTok TokenType.TT_K_ASM st with
  | .error e => .error e
  | .ok (_, st1) =>
    match matchTok TokenType.TT_LPAR st1 with
    | .error e => .error e
    | .ok (_, st2) =>
      match parseStringLiteral fuel st2 with
      | .error e => .error e
      | .ok (asmBlock, st3) =>
        if st3.cur.type = TokenType.TT_COLON then
          match matchTok TokenType.TT_COLON st3 with
          | .error e => .error e
          | .ok (_, st4) =>
            match parseSeparatedList TokenType.TT_COMMA TrailingSeparator.TRAILING_OPTIONAL
                TokenType.TT_RPAR parseBindingRequest fuel st4 with
            | .error e => .error e
            | .ok (requests, st5) =>
              match matchTok TokenType.TT_RPAR st5 with
              | .error e => .error e
              | .ok (_, st6) => .ok (⟨asmBlock, requests⟩, st6)
        else
          match matchTok TokenType.TT_RPAR st3 with
          | .error e => .error e
          | .ok (_, st4) => .ok (⟨asmBlock, []⟩, st4)

/-- Parser::parseDeclaration: a type, the declared name, an optional
equals-sign-led initializer expression. -/
def parseDeclaration (fuel : Nat) (st : ParserState) : ParseResult ast.Declaration :=
  match parseType fuel st with
  | .error e => .error e
  | .ok (ty, st1) =>
    match matchTok TokenType.TT_IDENT st1 with
    | .error e => .error e
    | .ok (n, st2) =>
      if st2.cur.type = TokenType.TT_EQUAL then
        match matchTok TokenType.TT_EQUAL st2 with
        | .error e => .error e
        | .ok (_, st3) =>
          match parseExpression st3 with
          | .error e => .error e
          | .ok (expression, st4) => .ok (⟨ty, ⟨n, none⟩, some expression⟩, st4)
      else
        .ok (⟨ty, ⟨n, none⟩, none⟩, st2)

/-- Parser::parseSingleInstruction: dispatch on the leading token: return
statement, inline-asm statement, or a declaration for each primitive-type
keyword of PURE_TYPES_TOKEN_LIST; any other leading token is a
user-facing error at its position. -/
def parseSingleInstruction (fuel : Nat) (st : ParserState) : ParseResult ast.Instruction :=
  match st.cur.type with
  | TokenType.TT_K_RETURN =>
    match parseReturnStatement st with
    | .error e => .error e
    | .ok (r, st1) => .ok (.ret r, st1)
  | TokenType.TT_K_ASM =>
    match parseInlineAsmStatement fuel st with
    | .error e => .error e
    | .ok (a, st1) => .ok (.asmStmt a, st1)
  | TokenType.TT_K_INT =>
    match parseDeclaration fuel st with
    | .error e => .error e
    | .ok (d, st1) => .ok (.decl d, st1)
  | TokenType.TT_K_VOID =>
    match parseDeclaration fuel st with
    | .error e => .error e
    | .ok (d, st1) => .ok (.decl d, st1)
  | TokenType.TT_K_CHAR =>
    match parseDeclaration fuel st with
    | .error e => .error e
    | .ok (d, st1) => .ok (.decl d, st1)
  | _ => .error (.syntaxError msgUnexpectedInstruction st.cur.position)

/-- The argument loop of Parser::parseFunctionCall, exactly as written in
the source: while the closing parenthesis is absent, parse an expression
and then unconditionally demand a comma. -/
def parseFunctionCallArgs : Nat → ParserState → ParseResult (List ast.Expression)
  | 0, _ => .error .outOfFuel
  | fuel+1, st =>
    if st.cur.type = TokenType.TT_RPAR then .ok ([], st)
    else
      match parseExpression st with
      | .error e => .error e
      | .ok (e1, st1) =>
        match matchTok TokenType.TT_COMMA st1 with
        | .error e => .error e
        | .ok (_, st2) =>
          match parseFunctionCallArgs fuel st2 with
          | .error e => .error e
          | .ok (rest, st3) => .ok (e1 :: rest, st3)

/-- Parser::parseFunctionCall. -/
def parseFunctionCall (fuel : Nat) (st : ParserState) : ParseResult ast.FunctionCall :=
  match matchTok TokenType.TT_IDENT st with
  | .error e => .error e
  | .ok (n, st1) =>
    match matchTok TokenType.TT_LPAR st1 with
    | .error e => .error e
    | .ok (_, st2) =>
      match parseFunctionCallArgs fuel st2 with
      | .error e => .error e
      | .ok (arguments, st3) =>
        match matchTok TokenType.TT_RPAR st3 with
        | .error e => .error e
        | .ok (_, st4) => .ok (⟨n, arguments⟩, st4)

/-- Parser::parseCodeBlock: a curly-braced semicolon-separated statement
list with the trailing semicolon required. -/
def parseCodeBlock (fuel : Nat) (st : ParserState) : ParseResult ast.InstructionList :=
  match matchTok TokenType.TT_LCURL st with
  | .error e => .error e
  | .ok (_, st1) =>
    match parseSeparatedList TokenType.TT_SEMI TrailingSeparator.TRAILING_REQUIRED
        TokenType.TT_RCURL (parseSingleInstruction fuel) fuel st1 with
    | .error e => .error e
    | .ok (instructions, st2) =>
      match matchTok TokenType.TT_RCURL st2 with
      | .error e => .error e
      | .ok (_, st3) => .ok (⟨instructions⟩, st3)

/-- Parser::parseFunction. -/
def parseFunction (fuel : Nat) (st : ParserState) : ParseResult ast.Function :=
  match parseType fuel st with
  | .error e => .error e
  | .ok (returnType, st1) =>
    match matchTok TokenType.TT_IDENT st1 with
    | .error e => .error e
    | .ok (n, st2) =>
      match parseFunctionParams fuel st2 with
      | .error e => .error e
      | .ok (params, st3) =>
        match parseCodeBlock fuel st3 with
        | .error e => .error e
        | .ok (body, st4) => .ok (⟨⟨returnType.name, returnType.pointerDepth, none⟩, n, params, body⟩, st4)

/-- The member loop of Parser::parseClass: until the closing brace, build
an AccessSpecifier fixed at Public, parse a type and a name, and read
either a method (on an opening parenthesis) or a semicolon-terminated
attribute; members keep their source order. -/
def parseClassMembers (fuel : Nat) :
    Nat → ParserState →
    ParseResult (List (ast.Attribute × ast.AccessSpecifier) × List (ast.Method × ast.AccessSpecifier))
  | 0, _ => .error .outOfFuel
  | iter+1, st =>
    if st.cur.type = TokenType.TT_RCURL then .ok (([], []), st)
    else
      match parseType fuel st with
      | .error e => .error e
      | .ok (ty, st1) =>
        match matchTok TokenType.TT_IDENT st1 with
        | .error e => .error e
        | .ok (memberName, st2) =>
          if st2.cur.type = TokenType.TT_LPAR then
            match parseFunctionParams fuel st2 with
            | .error e => .error e
            | .ok (params, st3) =>
              match parseCodeBlock fuel st3 with
              | .error e => .error e
              | .ok (body, st4) =>
                match parseClassMembers fuel iter st4 with
                | .error e => .error e
                | .ok ((attrs, meths), st5) =>
                  .ok ((attrs, (⟨ty, memberName, params, body⟩, ⟨ast.Visibility.Public⟩) :: meths), st5)
          else
            match matchTok TokenType.TT_SEMI st2 with
            | .error e => .error e
            | .ok (_, st3) =>
              match parseClassMembers fuel iter st3 with
              | .error e => .error e
              | .ok ((attrs, meths), st4) =>
                .ok (((⟨ty, memberName⟩, ⟨ast.Visibility.Public⟩) :: attrs, meths), st4)

/-- Parser::parseClass: the class keyword, the name, a braced member list,
and the closing semicolon. -/
def parseClass (fuel : Nat) (st : ParserState) : ParseResult ast.Class :=
  match matchTok TokenType.TT_K_CLASS st with
  | .error e => .error e
  | .ok (_, st1) =>
    match matchTok TokenType.TT_IDENT st1 with
    | .error e => .error e
    | .ok (n, st2) =>
      match matchTok TokenType.TT_LCURL st2 with
      | .error e => .error e
      | .ok (_, st3) =>
        match parseClassMembers fuel fuel st3 with
        | .error e => .error e
        | .ok ((attributes, methods), st4) =>
          match matchTok TokenType.TT_RCURL st4 with
          | .error e => .error e
          | .ok (_, st5) =>
            match matchTok TokenType.TT_SEMI st5 with
            | .error e => .error e
            | .ok (_, st6) => .ok (⟨n, attributes, methods⟩, st6)

/-- The top-level loop of Parser::parseTranslationUnit: until TT_END, a
class declaration on the class keyword, a function otherwise. -/
def parseTopLevel (fuel : Nat) :
    Nat → ParserState → ParseResult (List ast.Function × List ast.Class)
  | 0, _ => .error .outOfFuel
  | iter+1, st =>
    if st.cur.type = TokenType.TT_END then .ok (([], []), st)
    else if st.cur.type = TokenType.TT_K_CLASS then
      match parseClass fuel st with
      | .error e => .error e
      | .ok (c, st1) =>
        match parseTopLevel fuel iter st1 with
        | .error e => .error e
        | .ok ((funcs, classes), st2) => .ok ((funcs, c :: classes), st2)
    else
      match parseFunction fuel st with
      | .error e => .error e
      | .ok (f, st1) =>
        match parseTopLevel fuel iter st1 with
        | .error e => .error e
        | .ok ((funcs, classes), st2) => .ok ((f :: funcs, classes), st2)

/-- Parser::parseTranslationUnit: pull the first token, read classes and
functions until TT_END, and demand TT_END. -/
def parseTranslationUnit (fuel : Nat) (items : List LexItem) :
    Except CompileError ast.TranslationUnit :=
  match parseTopLevel fuel fuel (startState items) with
  | .error e => .error e
  | .ok ((functions, classes), st1) =>
    match matchTok TokenType.TT_END st1 with
    | .error e => .error e
    | .ok _ => .ok ⟨functions, classes⟩

/-! ## Basic reduction lemmas for the lexer boundary -/

@[simp]
theorem startState_cons_tok (t : Token) (l : List LexItem) :
    startState (LexItem.tok t :: l) = ⟨t, l⟩ := rfl

@[simp]
theorem nextTokenState_mk (t : Token) (l : List LexItem) :
    nextTokenState ⟨t, l⟩ = startState l := rfl

theorem matchTok_eq (tt : TokenType) (t : Token) (l : List LexItem) (h : t.type = tt) :
    matchTok tt ⟨t, l⟩ = .ok (t.value, startState l) := by
  simp [matchTok, h]

theorem matchTok_ne (tt : TokenType) (t : Token) (l : List LexItem) (h : t.type ≠ tt) :
    matchTok tt ⟨t, l⟩ = .error (.syntaxError msgUnexpectedToken t.position) := by
  simp [matchTok, h]

/-- The lexer items of one double-quoted literal piece: opening quote
token, raw run, closing quote token. -/
def literalItems (s : String) : List LexItem :=
  [LexItem.tok ⟨TokenType.TT_DOUBLE_QUOTE, "\"", 0⟩, LexItem.raw s,
   LexItem.tok ⟨TokenType.TT_DOUBLE_QUOTE, "\"", 0⟩]

theorem parseRawSingleStringLiteral_literalItems (s : String) (rest : List LexItem) :
    parseRawSingleStringLiteral (startState (literalItems s ++ rest)) =
      .ok (s, startState rest) := rfl

/-! ## Claim C7: the two stubbed loadValueInRegister operations -/

/-- C7: for every Variable node and every generator and target register,
Variable.loadValueInRegister raises the placeholder fatal compiler-internal
error instead of emitting a move or load, and FunctionCall.loadValueInRegister
likewise raises its placeholder fatal error for every call. -/
theorem claim7_load_value_in_register_stubbed :
    ∀ (v : ast.Variable) (f : ast.FunctionCall) (g : NasmGenerator_x86_64) (r : Register),
      v.loadValueInRegister g r = .error (.internalError msgVariableLoadNotImplemented) ∧
      f.loadValueInRegister g r = .error (.internalError msgFunctionCallLoadNotImplemented) :=
  fun _ _ _ _ => ⟨rfl, rfl⟩

/-! ## Claim C8: description getters -/

/-- C8: with an unset description slot, Type.getTypeDescription and
Variable.getVariableDescription raise a compiler-internal error,
distinguished from the user-facing error class; once the slot is set, each
getter returns exactly the stored description. -/
theorem claim8_description_getters :
    ∀ (t : ast.TypeNode) (v : ast.Variable),
      (t.description = none →
        t.getTypeDescription = .error (.internalError msgTypeDescriptionNotSet) ∧
        (CompileError.internalError msgTypeDescriptionNotSet).isUserError = false) ∧
      (∀ d, t.description = some d → t.getTypeDescription = .ok d) ∧
      (v.description = none →
        v.getVariableDescription = .error (.internalError msgVariableDescriptionNotSet) ∧
        (CompileError.internalError msgVariableDescriptionNotSet).isUserError = false) ∧
      (∀ d, v.description = some d → v.getVariableDescription = .ok d) := by
  intro t v
  refine ⟨?_, ?_, ?_, ?_⟩
  · intro h
    exact ⟨by simp [ast.TypeNode.getTypeDescription, h], rfl⟩
  · intro d h
    simp [ast.TypeNode.getTypeDescription, h]
  · intro h
    exact ⟨by simp [ast.Variable.getVariableDescription, h], rfl⟩
  · intro d h
    simp [ast.Variable.getVariableDescription, h]

theorem claim8_description_getters_witness :
    ((⟨"int", 0, none⟩ : ast.TypeNode).getTypeDescription =
        .error (.internalError msgTypeDescriptionNotSet) ∧
      (CompileError.internalError msgTypeDescriptionNotSet).isUserError = false) ∧
    (⟨"int", 0, some ⟨"int"⟩⟩ : ast.TypeNode).getTypeDescription = .ok ⟨"int"⟩ ∧
    ((⟨"x", none⟩ : ast.Variable).getVariableDescription =
        .error (.internalError msgVariableDescriptionNotSet) ∧
      (CompileError.internalError msgVariableDescriptionNotSet).isUserError = false) ∧
    (⟨"x", some ⟨"int"⟩⟩ : ast.Variable).getVariableDescription = .ok ⟨"int"⟩ :=
  ⟨(claim8_description_getters ⟨"int", 0, none⟩ ⟨"x", none⟩).1 rfl,
   (claim8_description_getters ⟨"int", 0, some ⟨"int"⟩⟩ ⟨"x", none⟩).2.1 ⟨"int"⟩ rfl,
   (claim8_description_getters ⟨"int", 0, none⟩ ⟨"x", none⟩).2.2.1 rfl,
   (claim8_description_getters ⟨"int", 0, none⟩ ⟨"x", some ⟨"int"⟩⟩).2.2.2 ⟨"int"⟩ rfl⟩

/-! ## Claim C4: the argument loop of parseFunctionCall

The source loop demands a comma after every argument, including the last:
a call written f(a) is rejected at the closing parenthesis, while f(a,)
with a trailing comma is accepted. This is the opposite of the forbidden
trailing-comma discipline stated for argument lists. The loop does not use
parseSeparatedList, carries an unresolved TODO comment in the source, and
its only call site (in parseExpression) is commented out. -/

/-- C4: evaluated behaviour of Parser::parseFunctionCall. On the token
stream of f(a) it fails at the closing parenthesis where it demands a
comma; on the token stream of f(a,) with a trailing comma it succeeds. -/
theorem claim4_function_call_comma_behaviour :
    parseFunctionCall 2 (startState
      [LexItem.tok ⟨TokenType.TT_IDENT, "f", 0⟩, LexItem.tok ⟨TokenType.TT_LPAR, "(", 1⟩,
       LexItem.tok ⟨TokenType.TT_IDENT, "a", 2⟩, LexItem.tok ⟨TokenType.TT_RPAR, ")", 3⟩]) =
      .error (.syntaxError msgUnexpectedToken 3) ∧
    parseFunctionCall 2 (startState
      [LexItem.tok ⟨TokenType.TT_IDENT, "f", 0⟩, LexItem.tok ⟨TokenType.TT_LPAR, "(", 1⟩,
       LexItem.tok ⟨TokenType.TT_IDENT, "a", 2⟩, LexItem.tok ⟨TokenType.TT_COMMA, ",", 3⟩,
       LexItem.tok ⟨TokenType.TT_RPAR, ")", 4⟩]) =
      .ok (⟨"f", [ast.Expression.var ⟨"a", none⟩]⟩, ⟨endToken, []⟩) :=
  ⟨rfl, rfl⟩

/-! ## Claim C3: (int a,) under the forbidden trailing-comma policy -/

/-- C3 counterexample: for the parameter list (int a,) with the five tokens
at positions 0..4 (the trailing comma at position 3, the closing
parenthesis at position 4), parsing does fail with a SyntaxError, but its
source position is 4, the closing parenthesis, not 3, the trailing comma. -/
theorem claim3_counterexample_position_is_breaker :
    parseFunctionParams 2 (startState
      [LexItem.tok ⟨TokenType.TT_LPAR, "(", 0⟩, LexItem.tok ⟨TokenType.TT_K_INT, "int", 1⟩,
       LexItem.tok ⟨TokenType.TT_IDENT, "a", 2⟩, LexItem.tok ⟨TokenType.TT_COMMA, ",", 3⟩,
       LexItem.tok ⟨TokenType.TT_RPAR, ")", 4⟩]) =
      .error (.syntaxError msgFoundTrailing 4) ∧ (4 : Nat) ≠ 3 :=
  ⟨rfl, by decide⟩

/-- C3 amended: a parameter list (int a,) under the forbidden
trailing-comma policy fails with a SyntaxError positioned at the breaker
token, the closing parenthesis immediately following the trailing comma,
whatever the five source positions and the parameter name are. -/
theorem claim3_trailing_comma_error_at_breaker :
    ∀ (p0 p1 p2 p3 p4 : Nat) (aName : String),
      parseFunctionParams 2 (startState
        [LexItem.tok ⟨TokenType.TT_LPAR, "(", p0⟩, LexItem.tok ⟨TokenType.TT_K_INT, "int", p1⟩,
         LexItem.tok ⟨TokenType.TT_IDENT, aName, p2⟩, LexItem.tok ⟨TokenType.TT_COMMA, ",", p3⟩,
         LexItem.tok ⟨TokenType.TT_RPAR, ")", p4⟩]) =
        .error (.syntaxError msgFoundTrailing p4) :=
  fun _ _ _ _ _ _ => rfl

/-! ## Claim C10: parseRegisterName and the unchecked character 0 -/

/-- C10: parseRegisterName reads character 0 of the raw register-name
literal without a non-emptiness check: on a binding whose literal is the
empty literal the index is out of bounds; and for every non-empty literal
whose first character is not the equals sign it fails with a user-facing
SyntaxError before the register-name lookup. -/
theorem claim10_register_name_character_zero :
    ∀ (rest : List LexItem) (s : String) (c : Char) (cs : List Char),
      parseRegisterName (startState (literalItems ("") ++ rest)) =
        .error .indexOutOfBounds ∧
      (s.data = c :: cs → c ≠ '=' →
        parseRegisterName (startState (literalItems s ++ rest)) =
          .error (.syntaxError msgOnlyEqRegister (startState rest).cur.position)) := by
  intro rest s c cs
  constructor
  · rfl
  · intro h hc
    simp only [parseRegisterName, parseRawSingleStringLiteral_literalItems]
    rw [h]
    simp [hc]

theorem claim10_register_name_character_zero_witness :
    (("rax").data = 'r' :: ['a', 'x'] ∧ 'r' ≠ '=') ∧
    parseRegisterName (startState (literalItems ("") ++ [])) = .error .indexOutOfBounds ∧
    parseRegisterName (startState (literalItems ("rax") ++ [])) =
      .error (.syntaxError msgOnlyEqRegister (startState []).cur.position) :=
  ⟨⟨by decide, by decide⟩,
   (claim10_register_name_character_zero [] ("rax") 'r' ['a', 'x']).1,
   (claim10_register_name_character_zero [] ("rax") 'r' ['a', 'x']).2 (by decide) (by decide)⟩

/-! ## Claim C2: how the register-name string of a binding is parsed -/

/-- Modelled from the spec: the grammar rules under test read
binding := eq-sign stringLiteral lpar IDENT rpar and
stringLiteral := quoted raw pieces, adjacent pieces concatenated with
escapes replaced at concatenation time. Under this reading the
register-name string of a binding would be obtained by parseStringLiteral
before the leading equals sign is interpreted. -/
def parseRegisterNameSpecModel (fuel : Nat) (st : ParserState) : ParseResult Register :=
  match parseStringLiteral fuel st with
  | .error e => .error e
  | .ok (lit, st1) =>
    match lit.content.data with
    | [] => .error (.syntaxError msgOnlyEqRegister st1.cur.position)
    | c :: _ =>
      if c = '=' then
        match strToReg (lit.content.drop 1) with
        | .error e => .error e
        | .ok r => .ok (r, st1)
      else .error (.syntaxError msgOnlyEqRegister st1.cur.position)

/-- C2 counterexample: on a binding whose register name is written as the
two adjacent literal pieces containing the equals sign r a and then x, the
actual parser takes only the first piece, so the register lookup fails on
the name r a; under the stringLiteral rule the pieces would concatenate
to the register name r a x and the parse would succeed with that
register. -/
theorem claim2_counterexample_no_concatenation :
    parseRegisterName (startState (literalItems ("=ra") ++ (literalItems ("x") ++
      [LexItem.tok ⟨TokenType.TT_LPAR, "(", 0⟩, LexItem.tok ⟨TokenType.TT_IDENT, "y", 0⟩,
       LexItem.tok ⟨TokenType.TT_RPAR, ")", 0⟩]))) =
      .error (.unknownRegister ("ra")) ∧
    parseRegisterNameSpecModel 3 (startState (literalItems ("=ra") ++ (literalItems ("x") ++
      [LexItem.tok ⟨TokenType.TT_LPAR, "(", 0⟩, LexItem.tok ⟨TokenType.TT_IDENT, "y", 0⟩,
       LexItem.tok ⟨TokenType.TT_RPAR, ")", 0⟩]))) =
      .ok (Register.rax, startState
        [LexItem.tok ⟨TokenType.TT_LPAR, "(", 0⟩, LexItem.tok ⟨TokenType.TT_IDENT, "y", 0⟩,
         LexItem.tok ⟨TokenType.TT_RPAR, ")", 0⟩]) :=
  ⟨rfl, rfl⟩

/-- C2 amended: the register-name string of an inline-asm binding is
parsed by parseRawSingleStringLiteral, a single raw double-quoted literal:
exactly one literal piece is consumed (whatever follows it, even another
adjacent piece) and no escape replacement is applied; the raw text behind
the leading equals sign goes verbatim to the register-name lookup. -/
theorem claim2_register_name_single_raw_literal :
    ∀ (s : String) (cs : List Char) (rest : List LexItem),
      s.data = '=' :: cs →
      parseRegisterName (startState (literalItems s ++ rest)) =
        (match strToReg (s.drop 1) with
         | .error e => .error e
         | .ok r => .ok (r, startState rest)) := by
  intro s cs rest h
  simp only [parseRegisterName, parseRawSingleStringLiteral_literalItems]
  rw [h]
  simp

theorem claim2_register_name_single_raw_literal_witness :
    (("=rax").data = '=' :: ['r', 'a', 'x']) ∧
    parseRegisterName (startState (literalItems ("=rax") ++ [])) =
      (match strToReg (("=rax").drop 1) with
       | .error e => .error e
       | .ok r => .ok (r, startState [])) :=
  ⟨by decide,
   claim2_register_name_single_raw_literal ("=rax") ['r', 'a', 'x'] [] (by decide)⟩

/-! ## Claim C6: parseStringLiteral -/

/-- The lexer items of a sequence of adjacent literal pieces. -/
def literalItemsList : List String → List LexItem
  | [] => []
  | s :: rest => literalItems s ++ literalItemsList rest

theorem parseStringLiteralPieces_literalItemsList :
    ∀ (pieces : List String) (rest : List LexItem),
      (startState rest).cur.type ≠ TokenType.TT_DOUBLE_QUOTE →
      parseStringLiteralPieces (pieces.length + 1) (startState (literalItemsList pieces ++ rest)) =
        .ok (pieces, startState rest) := by
  intro pieces
  induction pieces with
  | nil =>
    intro rest h
    simp only [literalItemsList, List.nil_append, List.length_nil]
    rw [parseStringLiteralPieces]
    rw [if_neg h]
  | cons s tl ih =>
    intro rest h
    simp only [literalItemsList, List.length_cons, List.append_assoc]
    rw [parseStringLiteralPieces]
    rw [if_pos (show (startState (literalItems s ++ (literalItemsList tl ++ rest))).cur.type =
      TokenType.TT_DOUBLE_QUOTE from rfl)]
    rw [parseRawSingleStringLiteral_literalItems s (literalItemsList tl ++ rest)]
    simp only [ih rest h]

/-- C6: parseStringLiteral over one or more adjacent double-quoted pieces
returns a StringLiteral whose content is the in-order concatenation of the
pieces with escapes replaced per piece; with no double-quoted piece
present it fails with a user-facing error at the current token. -/
theorem claim6_string_literal_concatenation :
    ∀ (pieces : List String) (rest : List LexItem),
      (startState rest).cur.type ≠ TokenType.TT_DOUBLE_QUOTE →
      (pieces ≠ [] →
        parseStringLiteral (pieces.length + 1) (startState (literalItemsList pieces ++ rest)) =
          .ok (⟨String.join (pieces.map replaceEscapes)⟩, startState rest)) ∧
      parseStringLiteral 1 (startState rest) =
        .error (.syntaxError msgExpectedStringLiteral (startState rest).cur.position) := by
  intro pieces rest h
  constructor
  · intro hne
    simp only [parseStringLiteral]
    rw [parseStringLiteralPieces_literalItemsList pieces rest h]
    simp [List.isEmpty_iff, hne]
  · simp only [parseStringLiteral]
    have h0 := parseStringLiteralPieces_literalItemsList [] rest h
    simp only [literalItemsList, List.nil_append, List.length_nil] at h0
    rw [h0]
    simp

theorem claim6_string_literal_concatenation_witness :
    ((startState ([] : List LexItem)).cur.type ≠ TokenType.TT_DOUBLE_QUOTE ∧
      (["a\\tb", "c"] : List String) ≠ []) ∧
    parseStringLiteral 3 (startState (literalItemsList ["a\\tb", "c"] ++ [])) =
      .ok (⟨"a\tbc"⟩, startState []) ∧
    parseStringLiteral 1 (startState ([] : List LexItem)) =
      .error (.syntaxError msgExpectedStringLiteral (startState ([] : List LexItem)).cur.position) :=
  ⟨⟨by decide, by decide⟩,
   (claim6_string_literal_concatenation ["a\\tb", "c"] [] (by decide)).1 (by decide),
   (claim6_string_literal_concatenation ["a\\tb", "c"] [] (by decide)).2⟩

/-! ## Claim C5: statement dispatch on the leading token -/

/-- C5: a statement whose leading token is an arbitrary identifier makes
parseSingleInstruction fail with a SyntaxError at that token; and a
declaration instruction is produced only when the leading token is one of
the primitive-type keywords. -/
theorem claim5_instruction_leading_token :
    ∀ (fuel : Nat) (st : ParserState),
      (st.cur.type = TokenType.TT_IDENT →
        parseSingleInstruction fuel st =
          .error (.syntaxError msgUnexpectedInstruction st.cur.position)) ∧
      (∀ (i : ast.Instruction) (st1 : ParserState),
        parseSingleInstruction fuel st = .ok (i, st1) → i.isDeclaration = true →
        st.cur.type ∈ pureTypeTokens) := by
  intro fuel st
  constructor
  · intro h
    simp only [parseSingleInstruction, h]
  · intro i st1 hok hdecl
    cases htt : st.cur.type <;> simp only [parseSingleInstruction, htt] at hok <;>
      first
      | decide
      | exact absurd hok (by simp)
      | (split at hok
         · exact absurd hok (by simp)
         · obtain ⟨hi, -⟩ := Prod.mk.injEq .. ▸ Except.ok.inj hok
           subst hi
           simp [ast.Instruction.isDeclaration] at hdecl)

theorem claim5_instruction_leading_token_witness :
    ((⟨⟨TokenType.TT_IDENT, "x", 7⟩, []⟩ : ParserState).cur.type = TokenType.TT_IDENT ∧
      parseSingleInstruction 1 ⟨⟨TokenType.TT_IDENT, "x", 7⟩, []⟩ =
        .error (.syntaxError msgUnexpectedInstruction 7)) ∧
    (startState
        [LexItem.tok ⟨TokenType.TT_K_INT, "int", 0⟩, LexItem.tok ⟨TokenType.TT_IDENT, "x", 1⟩,
         LexItem.tok ⟨TokenType.TT_SEMI, ";", 2⟩]).cur.type ∈ pureTypeTokens :=
  ⟨⟨rfl, (claim5_instruction_leading_token 1 ⟨⟨TokenType.TT_IDENT, "x", 7⟩, []⟩).1 rfl⟩,
   (claim5_instruction_leading_token 1 (startState
      [LexItem.tok ⟨TokenType.TT_K_INT, "int", 0⟩, LexItem.tok ⟨TokenType.TT_IDENT, "x", 1⟩,
       LexItem.tok ⟨TokenType.TT_SEMI, ";", 2⟩])).2
     (ast.Instruction.decl ⟨⟨"int", 0, none⟩, ⟨"x", none⟩, none⟩)
     ⟨⟨TokenType.TT_SEMI, ";", 2⟩, []⟩ rfl rfl⟩

/-! ## Claim C9: every class member carries the Public access specifier -/

theorem parseClassMembers_public :
    ∀ (fuel iter : Nat) (st : ParserState)
      (attrs : List (ast.Attribute × ast.AccessSpecifier))
      (meths : List (ast.Method × ast.AccessSpecifier)) (st1 : ParserState),
      parseClassMembers fuel iter st = .ok ((attrs, meths), st1) →
      (∀ p ∈ attrs, p.2 = ⟨ast.Visibility.Public⟩) ∧
      (∀ p ∈ meths, p.2 = ⟨ast.Visibility.Public⟩) := by
  intro fuel iter
  induction iter with
  | zero =>
    intro st attrs meths st1 h
    exact absurd h (by simp [parseClassMembers])
  | succ n ih =>
    intro st attrs meths st1 h
    rw [parseClassMembers] at h
    split at h
    · obtain ⟨h1, -⟩ := Prod.mk.injEq .. ▸ Except.ok.inj h
      obtain ⟨ha, hm⟩ := Prod.mk.injEq .. ▸ h1
      subst ha; subst hm
      simp
    · split at h
      · exact absurd h (by simp)
      · split at h
        · exact absurd h (by simp)
        · split at h
          · split at h
            · exact absurd h (by simp)
            · split at h
              · exact absurd h (by simp)
              · split at h
                · exact absurd h (by simp)
                · rename_i heq
                  obtain ⟨h1, -⟩ := Prod.mk.injEq .. ▸ Except.ok.inj h
                  obtain ⟨ha, hm⟩ := Prod.mk.injEq .. ▸ h1
                  subst ha; subst hm
                  obtain ⟨iha, ihm⟩ := ih _ _ _ _ heq
                  refine ⟨iha, ?_⟩
                  intro p hp
                  rcases List.mem_cons.mp hp with hp | hp
                  · rw [hp]
                  · exact ihm p hp
          · split at h
            · exact absurd h (by simp)
            · split at h
              · exact absurd h (by simp)
              · rename_i heq
                obtain ⟨h1, -⟩ := Prod.mk.injEq .. ▸ Except.ok.inj h
                obtain ⟨ha, hm⟩ := Prod.mk.injEq .. ▸ h1
                subst ha; subst hm
                obtain ⟨iha, ihm⟩ := ih _ _ _ _ heq
                refine ⟨?_, ihm⟩
                intro p hp
                rcases List.mem_cons.mp hp with hp | hp
                · rw [hp]
                · exact iha p hp

/-- C9: whenever parseClass succeeds, every attribute and every method of
the produced Class is paired with the Public access specifier: no input
token sequence makes the parser produce a Protected or Private member. -/
theorem claim9_class_members_all_public :
    ∀ (fuel : Nat) (st : ParserState) (c : ast.Class) (st1 : ParserState),
      parseClass fuel st = .ok (c, st1) →
      (∀ p ∈ c.attributes, p.2 = ⟨ast.Visibility.Public⟩) ∧
      (∀ p ∈ c.methods, p.2 = ⟨ast.Visibility.Public⟩) := by
  intro fuel st c st1 h
  rw [parseClass] at h
  split at h
  · exact absurd h (by simp)
  · split at h
    · exact absurd h (by simp)
    · split at h
      · exact absurd h (by simp)
      · split at h
        · exact absurd h (by simp)
        · rename_i heq
          split at h
          · exact absurd h (by simp)
          · split at h
            · exact absurd h (by simp)
            · obtain ⟨h1, -⟩ := Prod.mk.injEq .. ▸ Except.ok.inj h
              subst h1
              exact parseClassMembers_public _ _ _ _ _ _ heq

theorem claim9_class_members_all_public_witness :
    (∀ p ∈ ([(⟨⟨"int", 0, none⟩, "x"⟩, ⟨ast.Visibility.Public⟩)] :
        List (ast.Attribute × ast.AccessSpecifier)), p.2 = ⟨ast.Visibility.Public⟩) ∧
    (∀ p ∈ ([] : List (ast.Method × ast.AccessSpecifier)), p.2 = ⟨ast.Visibility.Public⟩) :=
  claim9_class_members_all_public 2 (startState
    [LexItem.tok ⟨TokenType.TT_K_CLASS, "class", 0⟩, LexItem.tok ⟨TokenType.TT_IDENT, "A", 1⟩,
     LexItem.tok ⟨TokenType.TT_LCURL, "\x7b", 2⟩, LexItem.tok ⟨TokenType.TT_K_INT, "int", 3⟩,
     LexItem.tok ⟨TokenType.TT_IDENT, "x", 4⟩, LexItem.tok ⟨TokenType.TT_SEMI, ";", 5⟩,
     LexItem.tok ⟨TokenType.TT_RCURL, "\x7d", 6⟩, LexItem.tok ⟨TokenType.TT_SEMI, ";", 7⟩])
    ⟨"A", [(⟨⟨"int", 0, none⟩, "x"⟩, ⟨ast.Visibility.Public⟩)], []⟩ ⟨endToken, []⟩ rfl

/-! ## Claim C1: the trailing-separator policies of parseSeparatedList

The schematic inputs: n elements, each one token of kind ttE with empty
text at position 0, separated by separator tokens, closed by a breaker
token, with arbitrary lexer items behind the breaker. -/

/-- A schematic one-token lexer item. -/
def mkTok (tt : TokenType) : LexItem := LexItem.tok ⟨tt, "", 0⟩

/-- The items of n schematic elements each followed by a separator. -/
def sepCore (ttE ttSep : TokenType) : Nat → List LexItem
  | 0 => []
  | n+1 => mkTok ttE :: mkTok ttSep :: sepCore ttE ttSep n

theorem startState_sepCore_elem (ttE ttSep : TokenType) (n : Nat) (l : List LexItem) :
    (startState (sepCore ttE ttSep n ++ mkTok ttE :: l)).cur = ⟨ttE, "", 0⟩ := by
  cases n <;> rfl

theorem startState_sepCoreSucc (ttE ttSep : TokenType) (n : Nat) (l : List LexItem) :
    (startState (sepCore ttE ttSep (n+1) ++ l)).cur = ⟨ttE, "", 0⟩ := rfl

theorem sepList_accept_trailing (ttE ttSep ttBrk : TokenType) (mode : TrailingSeparator)
    (hSep : ttSep ≠ TokenType.TT_NONE) (hBrk : ttBrk ≠ TokenType.TT_NONE)
    (hEB : ttE ≠ ttBrk)
    (hMode : mode ≠ TrailingSeparator.TRAILING_FORBIDDEN) :
    ∀ (n : Nat) (rest : List LexItem),
      parseSeparatedList ttSep mode ttBrk (matchTok ttE) (n + 1)
        (startState (sepCore ttE ttSep n ++ mkTok ttBrk :: rest)) =
        .ok (List.replicate n (""), ⟨⟨ttBrk, "", 0⟩, rest⟩) := by
  intro n
  induction n with
  | zero =>
    intro rest
    rw [show sepCore ttE ttSep 0 ++ mkTok ttBrk :: rest =
      LexItem.tok ⟨ttBrk, "", 0⟩ :: rest from rfl]
    rw [startState_cons_tok]
    rw [parseSeparatedList]
    rw [if_pos ⟨hBrk, rfl⟩]
    rfl
  | succ n ih =>
    intro rest
    rw [show sepCore ttE ttSep (n+1) ++ mkTok ttBrk :: rest =
      LexItem.tok ⟨ttE, "", 0⟩ :: LexItem.tok ⟨ttSep, "", 0⟩ ::
        (sepCore ttE ttSep n ++ mkTok ttBrk :: rest) from rfl]
    rw [startState_cons_tok]
    rw [parseSeparatedList]
    rw [if_neg (fun hc => hEB hc.2)]
    rw [matchTok_eq ttE ⟨ttE, "", 0⟩ _ rfl]
    simp [matchTok_eq, hSep, hMode, ih rest]
    exact (List.replicate_succ ("") n).symm

theorem sepList_accept_no_trailing (ttE ttSep ttBrk : TokenType) (mode : TrailingSeparator)
    (hSep : ttSep ≠ TokenType.TT_NONE) (hBrk : ttBrk ≠ TokenType.TT_NONE)
    (hEB : ttE ≠ ttBrk) (hSB : ttSep ≠ ttBrk)
    (hMode : mode ≠ TrailingSeparator.TRAILING_REQUIRED) :
    ∀ (n : Nat) (rest : List LexItem),
      parseSeparatedList ttSep mode ttBrk (matchTok ttE) (n + 2)
        (startState (sepCore ttE ttSep n ++ mkTok ttE :: mkTok ttBrk :: rest)) =
        .ok (List.replicate (n + 1) "", ⟨⟨ttBrk, "", 0⟩, rest⟩) := by
  intro n
  induction n with
  | zero =>
    intro rest
    rw [show sepCore ttE ttSep 0 ++ mkTok ttE :: mkTok ttBrk :: rest =
      LexItem.tok ⟨ttE, "", 0⟩ :: LexItem.tok ⟨ttBrk, "", 0⟩ :: rest from rfl]
    rw [startState_cons_tok]
    rw [parseSeparatedList]
    rw [if_neg (fun hc => hEB hc.2)]
    rw [matchTok_eq ttE ⟨ttE, "", 0⟩ _ rfl]
    simp [hSep, hMode, Ne.symm hSB]
  | succ n ih =>
    intro rest
    rw [show sepCore ttE ttSep (n+1) ++ mkTok ttE :: mkTok ttBrk :: rest =
      LexItem.tok ⟨ttE, "", 0⟩ :: LexItem.tok ⟨ttSep, "", 0⟩ ::
        (sepCore ttE ttSep n ++ mkTok ttE :: mkTok ttBrk :: rest) from rfl]
    rw [startState_cons_tok]
    rw [parseSeparatedList]
    rw [if_neg (fun hc => hEB hc.2)]
    rw [matchTok_eq ttE ⟨ttE, "", 0⟩ _ rfl]
    simp [matchTok_eq, hSep, hEB, startState_sepCore_elem, ih rest]
    exact (List.replicate_succ ("") (n + 1)).symm

theorem sepList_required_reject (ttE ttSep ttBrk : TokenType)
    (hSep : ttSep ≠ TokenType.TT_NONE) (hBrk : ttBrk ≠ TokenType.TT_NONE)
    (hEB : ttE ≠ ttBrk) (hSB : ttSep ≠ ttBrk) :
    ∀ (n : Nat) (rest : List LexItem),
      parseSeparatedList ttSep TrailingSeparator.TRAILING_REQUIRED ttBrk (matchTok ttE) (n + 2)
        (startState (sepCore ttE ttSep n ++ mkTok ttE :: mkTok ttBrk :: rest)) =
        .error (.syntaxError msgExpectedTrailing 0) := by
  intro n
  induction n with
  | zero =>
    intro rest
    rw [show sepCore ttE ttSep 0 ++ mkTok ttE :: mkTok ttBrk :: rest =
      LexItem.tok ⟨ttE, "", 0⟩ :: LexItem.tok ⟨ttBrk, "", 0⟩ :: rest from rfl]
    rw [startState_cons_tok]
    rw [parseSeparatedList]
    rw [if_neg (fun hc => hEB hc.2)]
    rw [matchTok_eq ttE ⟨ttE, "", 0⟩ _ rfl]
    simp [hSep, Ne.symm hSB]
  | succ n ih =>
    intro rest
    rw [show sepCore ttE ttSep (n+1) ++ mkTok ttE :: mkTok ttBrk :: rest =
      LexItem.tok ⟨ttE, "", 0⟩ :: LexItem.tok ⟨ttSep, "", 0⟩ ::
        (sepCore ttE ttSep n ++ mkTok ttE :: mkTok ttBrk :: rest) from rfl]
    rw [startState_cons_tok]
    rw [parseSeparatedList]
    rw [if_neg (fun hc => hEB hc.2)]
    rw [matchTok_eq ttE ⟨ttE, "", 0⟩ _ rfl]
    simp [matchTok_eq, hSep, ih rest]

theorem sepList_forbidden_reject (ttE ttSep ttBrk : TokenType)
    (hSep : ttSep ≠ TokenType.TT_NONE) (hBrk : ttBrk ≠ TokenType.TT_NONE)
    (hEB : ttE ≠ ttBrk) :
    ∀ (n : Nat) (rest : List LexItem),
      parseSeparatedList ttSep TrailingSeparator.TRAILING_FORBIDDEN ttBrk (matchTok ttE) (n + 1)
        (startState (sepCore ttE ttSep (n + 1) ++ mkTok ttBrk :: rest)) =
        .error (.syntaxError msgFoundTrailing 0) := by
  intro n
  induction n with
  | zero =>
    intro rest
    rw [show sepCore ttE ttSep 1 ++ mkTok ttBrk :: rest =
      LexItem.tok ⟨ttE, "", 0⟩ :: LexItem.tok ⟨ttSep, "", 0⟩ ::
        LexItem.tok ⟨ttBrk, "", 0⟩ :: rest from rfl]
    rw [startState_cons_tok]
    rw [parseSeparatedList]
    rw [if_neg (fun hc => hEB hc.2)]
    rw [matchTok_eq ttE ⟨ttE, "", 0⟩ _ rfl]
    simp [matchTok_eq, hSep, hBrk]
  | succ n ih =>
    intro rest
    rw [show sepCore ttE ttSep (n+2) ++ mkTok ttBrk :: rest =
      LexItem.tok ⟨ttE, "", 0⟩ :: LexItem.tok ⟨ttSep, "", 0⟩ ::
        (sepCore ttE ttSep (n+1) ++ mkTok ttBrk :: rest) from rfl]
    rw [startState_cons_tok]
    rw [parseSeparatedList]
    rw [if_neg (fun hc => hEB hc.2)]
    rw [matchTok_eq ttE ⟨ttE, "", 0⟩ _ rfl]
    simp [matchTok_eq, hSep, hEB, startState_sepCoreSucc, ih rest]

/-- C1: for a schematic list of n+1 elements with separator ttSep and
breaker ttBrk: under the required trailing-separator policy the combinator
accepts the form with a separator after every element including the last
and rejects the same form without the final separator; under the forbidden
policy it rejects the form with the final separator and accepts the form
without it; under the optional policy it accepts both forms. -/
theorem claim1_separated_list_trailing_policies
    (ttE ttSep ttBrk : TokenType)
    (hSep : ttSep ≠ TokenType.TT_NONE) (hBrk : ttBrk ≠ TokenType.TT_NONE)
    (hEB : ttE ≠ ttBrk) (hSB : ttSep ≠ ttBrk) (n : Nat) (rest : List LexItem) :
    parseSeparatedList ttSep TrailingSeparator.TRAILING_REQUIRED ttBrk (matchTok ttE) (n + 2)
      (startState (sepCore ttE ttSep (n + 1) ++ mkTok ttBrk :: rest)) =
      .ok (List.replicate (n + 1) "", ⟨⟨ttBrk, "", 0⟩, rest⟩) ∧
    parseSeparatedList ttSep TrailingSeparator.TRAILING_REQUIRED ttBrk (matchTok ttE) (n + 2)
      (startState (sepCore ttE ttSep n ++ mkTok ttE :: mkTok ttBrk :: rest)) =
      .error (.syntaxError msgExpectedTrailing 0) ∧
    parseSeparatedList ttSep TrailingSeparator.TRAILING_FORBIDDEN ttBrk (matchTok ttE) (n + 1)
      (startState (sepCore ttE ttSep (n + 1) ++ mkTok ttBrk :: rest)) =
      .error (.syntaxError msgFoundTrailing 0) ∧
    parseSeparatedList ttSep TrailingSeparator.TRAILING_FORBIDDEN ttBrk (matchTok ttE) (n + 2)
      (startState (sepCore ttE ttSep n ++ mkTok ttE :: mkTok ttBrk :: rest)) =
      .ok (List.replicate (n + 1) "", ⟨⟨ttBrk, "", 0⟩, rest⟩) ∧
    parseSeparatedList ttSep TrailingSeparator.TRAILING_OPTIONAL ttBrk (matchTok ttE) (n + 2)
      (startState (sepCore ttE ttSep (n + 1) ++ mkTok ttBrk :: rest)) =
      .ok (List.replicate (n + 1) "", ⟨⟨ttBrk, "", 0⟩, rest⟩) ∧
    parseSeparatedList ttSep TrailingSeparator.TRAILING_OPTIONAL ttBrk (matchTok ttE) (n + 2)
      (startState (sepCore ttE ttSep n ++ mkTok ttE :: mkTok ttBrk :: rest)) =
      .ok (List.replicate (n + 1) "", ⟨⟨ttBrk, "", 0⟩, rest⟩) :=
  ⟨sepList_accept_trailing ttE ttSep ttBrk TrailingSeparator.TRAILING_REQUIRED
      hSep hBrk hEB (by intro hc; exact TrailingSeparator.noConfusion hc) (n + 1) rest,
   sepList_required_reject ttE ttSep ttBrk hSep hBrk hEB hSB n rest,
   sepList_forbidden_reject ttE ttSep ttBrk hSep hBrk hEB n rest,
   sepList_accept_no_trailing ttE ttSep ttBrk TrailingSeparator.TRAILING_FORBIDDEN
      hSep hBrk hEB hSB (by intro hc; exact TrailingSeparator.noConfusion hc) n rest,
   sepList_accept_trailing ttE ttSep ttBrk TrailingSeparator.TRAILING_OPTIONAL
      hSep hBrk hEB (by intro hc; exact TrailingSeparator.noConfusion hc) (n + 1) rest,
   sepList_accept_no_trailing ttE ttSep ttBrk TrailingSeparator.TRAILING_OPTIONAL
      hSep hBrk hEB hSB (by intro hc; exact TrailingSeparator.noConfusion hc) n rest⟩

theorem claim1_separated_list_trailing_policies_witness :
    (TokenType.TT_COMMA ≠ TokenType.TT_NONE ∧ TokenType.TT_RPAR ≠ TokenType.TT_NONE ∧
      TokenType.TT_IDENT ≠ TokenType.TT_RPAR ∧ TokenType.TT_COMMA ≠ TokenType.TT_RPAR) ∧
    (parseSeparatedList TokenType.TT_COMMA TrailingSeparator.TRAILING_REQUIRED TokenType.TT_RPAR
        (matchTok TokenType.TT_IDENT) 3
        (startState (sepCore TokenType.TT_IDENT TokenType.TT_COMMA 2 ++ mkTok TokenType.TT_RPAR :: [])) =
        .ok (List.replicate 2 (""), ⟨⟨TokenType.TT_RPAR, "", 0⟩, []⟩) ∧
      parseSeparatedList TokenType.TT_COMMA TrailingSeparator.TRAILING_REQUIRED TokenType.TT_RPAR
        (matchTok TokenType.TT_IDENT) 3
        (startState (sepCore TokenType.TT_IDENT TokenType.TT_COMMA 1 ++
          mkTok TokenType.TT_IDENT :: mkTok TokenType.TT_RPAR :: [])) =
        .error (.syntaxError msgExpectedTrailing 0) ∧
      parseSeparatedList TokenType.TT_COMMA TrailingSeparator.TRAILING_FORBIDDEN TokenType.TT_RPAR
        (matchTok TokenType.TT_IDENT) 2
        (startState (sepCore TokenType.TT_IDENT TokenType.TT_COMMA 2 ++ mkTok TokenType.TT_RPAR :: [])) =
        .error (.syntaxError msgFoundTrailing 0) ∧
      parseSeparatedList TokenType.TT_COMMA TrailingSeparator.TRAILING_FORBIDDEN TokenType.TT_RPAR
        (matchTok TokenType.TT_IDENT) 3
        (startState (sepCore TokenType.TT_IDENT TokenType.TT_COMMA 1 ++
          mkTok TokenType.TT_IDENT :: mkTok TokenType.TT_RPAR :: [])) =
        .ok (List.replicate 2 (""), ⟨⟨TokenType.TT_RPAR, "", 0⟩, []⟩) ∧
      parseSeparatedList TokenType.TT_COMMA TrailingSeparator.TRAILING_OPTIONAL TokenType.TT_RPAR
        (matchTok TokenType.TT_IDENT) 3
        (startState (sepCore TokenType.TT_IDENT TokenType.TT_COMMA 2 ++ mkTok TokenType.TT_RPAR :: [])) =
        .ok (List.replicate 2 (""), ⟨⟨TokenType.TT_RPAR, "", 0⟩, []⟩) ∧
      parseSeparatedList TokenType.TT_COMMA TrailingSeparator.TRAILING_OPTIONAL TokenType.TT_RPAR
        (matchTok TokenType.TT_IDENT) 3
        (startState (sepCore TokenType.TT_IDENT TokenType.TT_COMMA 1 ++
          mkTok TokenType.TT_IDENT :: mkTok TokenType.TT_RPAR :: [])) =
        .ok (List.replicate 2 (""), ⟨⟨TokenType.TT_RPAR, "", 0⟩, []⟩)) :=
  ⟨⟨by decide, by decide, by decide, by decide⟩,
   claim1_separated_list_trailing_policies TokenType.TT_IDENT TokenType.TT_COMMA TokenType.TT_RPAR
     (by decide) (by decide) (by decide) (by decide) 1 []⟩

end CppCompiler
